import Mathlib

/-!
# Verification of the `radiotap` crate's core parsing routines

This file shallowly embeds the parsing code of the `radiotap` Rust crate
(files `src/lib.rs`, `src/error.rs`, `src/ns.rs`, `src/field/mod.rs`) and
proves or refutes a list of specification claims about it.

Conventions of the embedding:
* Byte buffers (`&[u8]`) are `List Nat`; the cursor reader truncates each
  byte with `% 256`, which encodes the `u8` element type of the slice.
* `std::io::Cursor` is a `RCursor` (buffer plus position); the fallible
  `read_*` helpers of `byteorder` become `Except`-valued functions.
* Rust machine integers are `Nat` with explicit `% 2^w` where wrap-around
  matters (only the `u64` cursor-align arithmetic).
* `f32` data-rate values are modelled over `ℚ`; no claim depends on a
  concrete rate value.
* The crate file `src/field/ext.rs` is referenced by `src/field/mod.rs`
  but is not part of the sources; the types and helpers it must provide
  are modelled from the specification and marked as such.
-/

/-- The error kinds of `error.rs` (`ErrorKind`); the hidden non-exhaustive
variant is irrelevant to the claims and omitted. -/
inductive ErrorKind where
  | IoError
  | IncompleteError
  | InvalidLength
  | InvalidFormat
  | UnsupportedVersion
  | UnsupportedField
  deriving DecidableEq, Repr

/-- A `std::io::Cursor<&[u8]>`: the underlying buffer and a position. -/
structure RCursor where
  data : List Nat
  pos : Nat
  deriving DecidableEq, Repr

/-- Reading (`read_exact`) `k` bytes: fails (an IO error) when fewer than `k`
bytes remain; bytes are truncated to `u8` range. -/
def readN (k : Nat) (c : RCursor) : Except ErrorKind (List Nat × RCursor) :=
  if c.pos + k ≤ c.data.length then
    .ok (((c.data.drop c.pos).take k).map (· % 256), { c with pos := c.pos + k })
  else
    .error .IoError

/-- Little-endian value of a byte list (first byte least significant). -/
def leVal (bs : List Nat) : Nat :=
  bs.foldr (fun b acc => b + 256 * acc) 0

/-- Read `read_u8` of `byteorder`. -/
def readU8 (c : RCursor) : Except ErrorKind (Nat × RCursor) :=
  (readN 1 c).map (fun p => (leVal p.1, p.2))

/-- Read `read_u16::<LE>` of `byteorder`. -/
def readU16 (c : RCursor) : Except ErrorKind (Nat × RCursor) :=
  (readN 2 c).map (fun p => (leVal p.1, p.2))

/-- Read `read_u32::<LE>` of `byteorder`. -/
def readU32 (c : RCursor) : Except ErrorKind (Nat × RCursor) :=
  (readN 4 c).map (fun p => (leVal p.1, p.2))

/-- Read `read_u64::<LE>` of `byteorder`. -/
def readU64 (c : RCursor) : Except ErrorKind (Nat × RCursor) :=
  (readN 8 c).map (fun p => (leVal p.1, p.2))

/-- Read `read_i8` of `byteorder`: one byte, two's complement. -/
def readI8 (c : RCursor) : Except ErrorKind (Int × RCursor) :=
  (readN 1 c).map (fun p =>
    (let b := leVal p.1; if b < 128 then (b : Int) else (b : Int) - 256, p.2))

/-- Reading via `Read::read(&mut buf)` on a `Cursor` for a `k`-byte buffer previously
zero-filled: never fails, copies `min k remaining` bytes, leaves the tail
of the buffer as zeros, and advances by the bytes actually read. -/
def readInto (k : Nat) (c : RCursor) : List Nat × RCursor :=
  let bs := ((c.data.drop c.pos).take k).map (· % 256)
  (bs ++ List.replicate (k - bs.length) 0, { c with pos := c.pos + bs.length })

/-- Flag test `bitops::BitOps::is_flag_set` / `is_bit_set` for the single-bit masks
used throughout the crate: `v & flag != 0`. -/
def is_flag_set (v flag : Nat) : Bool :=
  v &&& flag != 0

/-- Bit extraction `bitops::BitOps::bits_as_int(start, count)`: `(v >> start)` masked to
`count` bits. -/
def bits_as_int (v start count : Nat) : Nat :=
  (v >>> start) &&& (2 ^ count - 1)

/-- The Radiotap header (`field::Header`). -/
structure Header where
  version : Nat
  length : Nat
  size : Nat
  present : List Nat
  deriving DecidableEq, Repr

instance {ε α : Type _} [DecidableEq ε] [DecidableEq α] :
    DecidableEq (Except ε α) := fun x y =>
  match x, y with
  | .ok a, .ok b =>
    if h : a = b then .isTrue (by rw [h]) else .isFalse (by simp [h])
  | .ok _, .error _ => .isFalse (by simp)
  | .error _, .ok _ => .isFalse (by simp)
  | .error e, .error f =>
    if h : e = f then .isTrue (by rw [h]) else .isFalse (by simp [h])

/-- The present-word loop of `Header::from_bytes`: repeatedly read a
32-bit little-endian word and push it; the source `break`s when bit 31 of
the word just read *is set* (`if present.is_bit_set(31) { break; }`). -/
def readPresentLoop (c : RCursor) (acc : List Nat) :
    Except ErrorKind (List Nat × RCursor) :=
  match h : readU32 c with
  | .error e => .error e
  | .ok (present, c') =>
    if is_flag_set present (1 <<< 31) then
      .ok (acc ++ [present], c')
    else
      readPresentLoop c' (acc ++ [present])
termination_by c.data.length - c.pos
decreasing_by
  simp only [readU32, readN] at h
  split at h
  · simp only [Except.map, Except.ok.injEq, Prod.mk.injEq] at h
    obtain ⟨-, h2⟩ := h
    subst h2
    show c.data.length - (c.pos + 4) < c.data.length - c.pos
    omega
  · simp [Except.map] at h

/-- Parser `Header::from_bytes`: version octet (must be 0), one pad octet, the
16-bit little-endian declared length (input must be at least that long),
then the present-word chain. `size` is the cursor position after the last
present word. -/
def Header.from_bytes (input : List Nat) : Except ErrorKind Header := do
  let c : RCursor := ⟨input, 0⟩
  let (version, c) ← readU8 c
  if version ≠ 0 then
    .error .UnsupportedVersion
  else do
  let (_pad, c) ← readU8 c
  let (length, c) ← readU16 c
  if input.length < length then
    .error .InvalidLength
  else do
  let (present, c) ← readPresentLoop c []
  .ok { version := version, length := length, size := c.pos, present := present }

/-- The 16-bit little-endian length declared at offset 2 of a Radiotap
capture. -/
def declaredLength (input : List Nat) : Nat :=
  leVal (((input.drop 2).take 2).map (· % 256))

/-- The field kinds of the default Radiotap namespace (`ns::RadiotapKind`).
The hidden `__Nonexhaustive` variant is `nonexhaustive` here. -/
inductive RadiotapKind where
  | Tsft
  | Flags
  | Rate
  | Channel
  | Fhss
  | AntennaSignal
  | AntennaNoise
  | LockQuality
  | TxAttenuation
  | TxAttenuationDb
  | TxPower
  | Antenna
  | AntennaSignalDb
  | AntennaNoiseDb
  | RxFlags
  | TxFlags
  | RtsRetries
  | DataRetries
  | XChannel
  | Mcs
  | AmpduStatus
  | Vht
  | Timestamp
  | nonexhaustive
  deriving DecidableEq, Repr

/-- Resolution `NamespaceKind::from_bit` for `RadiotapKind`: bits 0..22 resolve to a
kind, anything else is an error (`bail!`, a kind-less failure). -/
def RadiotapKind.from_bit (value : Nat) : Except ErrorKind RadiotapKind :=
  match value with
  | 0 => .ok .Tsft
  | 1 => .ok .Flags
  | 2 => .ok .Rate
  | 3 => .ok .Channel
  | 4 => .ok .Fhss
  | 5 => .ok .AntennaSignal
  | 6 => .ok .AntennaNoise
  | 7 => .ok .LockQuality
  | 8 => .ok .TxAttenuation
  | 9 => .ok .TxAttenuationDb
  | 10 => .ok .TxPower
  | 11 => .ok .Antenna
  | 12 => .ok .AntennaSignalDb
  | 13 => .ok .AntennaNoiseDb
  | 14 => .ok .RxFlags
  | 15 => .ok .TxFlags
  | 16 => .ok .RtsRetries
  | 17 => .ok .DataRetries
  | 18 => .ok .XChannel
  | 19 => .ok .Mcs
  | 20 => .ok .AmpduStatus
  | 21 => .ok .Vht
  | 22 => .ok .Timestamp
  | _ => .error .UnsupportedField

/-- Alignment `NamespaceKind::align` for `RadiotapKind`. -/
def RadiotapKind.align : RadiotapKind → Nat
  | .Tsft | .Timestamp => 8
  | .XChannel | .AmpduStatus => 4
  | .Channel | .Fhss | .LockQuality | .TxAttenuation | .TxAttenuationDb
  | .RxFlags | .TxFlags | .Vht => 2
  | _ => 1

/-- Size `NamespaceKind::size` for `RadiotapKind`. -/
def RadiotapKind.size : RadiotapKind → Nat
  | .Vht | .Timestamp => 12
  | .Tsft | .AmpduStatus | .XChannel => 8
  | .Channel => 4
  | .Mcs => 3
  | .Fhss | .LockQuality | .TxAttenuation | .TxAttenuationDb
  | .RxFlags | .TxFlags => 2
  | _ => 1

/-- Modelled from the spec: the guard interval, Long (800 ns) or Short
(400 ns). -/
inductive GuardInterval where
  | Long
  | Short
  deriving DecidableEq, Repr

/-- Modelled from the spec: the HT format of an MCS field. -/
inductive HtFormat where
  | Mixed
  | Greenfield
  deriving DecidableEq, Repr

/-- Modelled from the spec: the FEC type. -/
inductive Fec where
  | Bcc
  | Ldpc
  deriving DecidableEq, Repr

/-- Modelled from the spec: the bandwidth encodings the spec enumerates
(`0=20, 1=40, 2=20L, 3=20U`); the spec gives no table for further VHT
codes, so they are rejected here. No claim below depends on which codes
beyond 0..3 are accepted. -/
inductive Bandwidth where
  | Bw20
  | Bw40
  | Bw20L
  | Bw20U
  deriving DecidableEq, Repr

/-- Modelled from the spec: `Bandwidth::new` on the spec's table. -/
def Bandwidth.new (value : Nat) : Except ErrorKind Bandwidth :=
  match value with
  | 0 => .ok .Bw20
  | 1 => .ok .Bw40
  | 2 => .ok .Bw20L
  | 3 => .ok .Bw20U
  | _ => .error .UnsupportedField

/-- Modelled from the spec: the unit of a timestamp (low nibble of the
`unit_position` octet); milliseconds, microseconds or nanoseconds, other
encodings rejected. -/
inductive TimeUnit where
  | Milliseconds
  | Microseconds
  | Nanoseconds
  deriving DecidableEq, Repr

/-- Modelled from the spec: `TimeUnit::new`. -/
def TimeUnit.new (value : Nat) : Except ErrorKind TimeUnit :=
  match value with
  | 0 => .ok .Milliseconds
  | 1 => .ok .Microseconds
  | 2 => .ok .Nanoseconds
  | _ => .error .UnsupportedField

/-- Modelled from the spec: the sampling position of a timestamp (high
nibble of the `unit_position` octet per the spec); the standard's four
defined positions, other encodings rejected. -/
inductive SamplingPosition where
  | FirstMpduBit
  | PlcpSigAcquired
  | PpduEnd
  | MpduEnd
  deriving DecidableEq, Repr

/-- Modelled from the spec: `SamplingPosition::from`. -/
def SamplingPosition.from (value : Nat) : Except ErrorKind SamplingPosition :=
  match value with
  | 0 => .ok .FirstMpduBit
  | 1 => .ok .PlcpSigAcquired
  | 2 => .ok .PpduEnd
  | 3 => .ok .MpduEnd
  | _ => .error .UnsupportedField

/-- Modelled from the spec: the HT rate lookup. Inputs `(index 0..31,
bandwidth ∈ {20, 40}, gi)` succeed, anything else is `UnsupportedField`.
The spec does not reproduce the 802.11n Mbps table and no claim below
depends on the returned value, which is therefore modelled as 0. -/
def ht_rate (index : Nat) (bw : Bandwidth) (_gi : GuardInterval) :
    Except ErrorKind ℚ :=
  if index ≤ 31 ∧ (bw = .Bw20 ∨ bw = .Bw40) then .ok 0
  else .error .UnsupportedField

/-- Modelled from the spec: the VHT rate lookup. Inputs `(index 0..9,
bandwidth, gi, nss 1..8)` succeed, anything else is `UnsupportedField`.
As for `ht_rate` the Mbps value is irrelevant to every claim and modelled
as 0. -/
def vht_rate (index : Nat) (bw : Bandwidth) (_gi : GuardInterval)
    (nss : Nat) : Except ErrorKind ℚ :=
  if index ≤ 9 ∧ (bw = .Bw20 ∨ bw = .Bw40) ∧ 1 ≤ nss ∧ nss ≤ 8 then .ok 0
  else .error .UnsupportedField

/-! ## Field decoders of `src/field/mod.rs` -/

/-- Source `field::Tsft`. -/
structure Tsft where
  value : Nat
  deriving DecidableEq, Repr

def Tsft.from_bytes (input : List Nat) : Except ErrorKind Tsft := do
  let (value, _) ← readU64 ⟨input, 0⟩
  return { value }

/-- Source `field::Flags`. -/
structure Flags where
  cfp : Bool
  preamble : Bool
  wep : Bool
  fragmentation : Bool
  fcs : Bool
  data_pad : Bool
  bad_fcs : Bool
  sgi : Bool
  deriving DecidableEq, Repr

def Flags.from_bytes (input : List Nat) : Except ErrorKind Flags := do
  let (flags, _) ← readU8 ⟨input, 0⟩
  return {
    cfp := is_flag_set flags 0x01
    preamble := is_flag_set flags 0x02
    wep := is_flag_set flags 0x04
    fragmentation := is_flag_set flags 0x08
    fcs := is_flag_set flags 0x10
    data_pad := is_flag_set flags 0x20
    bad_fcs := is_flag_set flags 0x40
    sgi := is_flag_set flags 0x80 }

/-- Source `field::Rate`; the `f32` Mbps value lives in `ℚ`. -/
structure Rate where
  value : ℚ
  deriving DecidableEq, Repr

def Rate.from_bytes (input : List Nat) : Except ErrorKind Rate := do
  let (raw, _) ← readI8 ⟨input, 0⟩
  return { value := (raw : ℚ) / 2 }

/-- Source `field::ChannelFlags`. -/
structure ChannelFlags where
  turbo : Bool
  cck : Bool
  ofdm : Bool
  ghz2 : Bool
  ghz5 : Bool
  passive : Bool
  dynamic : Bool
  gfsk : Bool
  deriving DecidableEq, Repr

/-- Source `field::Channel`. -/
structure Channel where
  freq : Nat
  flags : ChannelFlags
  deriving DecidableEq, Repr

def Channel.from_bytes (input : List Nat) : Except ErrorKind Channel := do
  let c : RCursor := ⟨input, 0⟩
  let (freq, c) ← readU16 c
  let (flags, _) ← readU16 c
  return {
    freq
    flags := {
      turbo := is_flag_set flags 0x0010
      cck := is_flag_set flags 0x0020
      ofdm := is_flag_set flags 0x0040
      ghz2 := is_flag_set flags 0x0080
      ghz5 := is_flag_set flags 0x0100
      passive := is_flag_set flags 0x0200
      dynamic := is_flag_set flags 0x0400
      gfsk := is_flag_set flags 0x0800 } }

/-- Source `field::Fhss`. -/
structure Fhss where
  hopset : Nat
  pattern : Nat
  deriving DecidableEq, Repr

def Fhss.from_bytes (input : List Nat) : Except ErrorKind Fhss := do
  let c : RCursor := ⟨input, 0⟩
  let (hopset, c) ← readU8 c
  let (pattern, _) ← readU8 c
  return { hopset, pattern }

/-- Source `field::AntennaSignal` (signed dBm). -/
structure AntennaSignal where
  value : Int
  deriving DecidableEq, Repr

def AntennaSignal.from_bytes (input : List Nat) :
    Except ErrorKind AntennaSignal := do
  let (value, _) ← readI8 ⟨input, 0⟩
  return { value }

/-- Source `field::AntennaSignalDb`. -/
structure AntennaSignalDb where
  value : Nat
  deriving DecidableEq, Repr

def AntennaSignalDb.from_bytes (input : List Nat) :
    Except ErrorKind AntennaSignalDb := do
  let (value, _) ← readU8 ⟨input, 0⟩
  return { value }

/-- Source `field::AntennaNoise` (signed dBm). -/
structure AntennaNoise where
  value : Int
  deriving DecidableEq, Repr

def AntennaNoise.from_bytes (input : List Nat) :
    Except ErrorKind AntennaNoise := do
  let (value, _) ← readI8 ⟨input, 0⟩
  return { value }

/-- Source `field::AntennaNoiseDb`. -/
structure AntennaNoiseDb where
  value : Nat
  deriving DecidableEq, Repr

def AntennaNoiseDb.from_bytes (input : List Nat) :
    Except ErrorKind AntennaNoiseDb := do
  let (value, _) ← readU8 ⟨input, 0⟩
  return { value }

/-- Source `field::LockQuality`. -/
structure LockQuality where
  value : Nat
  deriving DecidableEq, Repr

def LockQuality.from_bytes (input : List Nat) :
    Except ErrorKind LockQuality := do
  let (value, _) ← readU16 ⟨input, 0⟩
  return { value }

/-- Source `field::TxAttenuation`. -/
structure TxAttenuation where
  value : Nat
  deriving DecidableEq, Repr

def TxAttenuation.from_bytes (input : List Nat) :
    Except ErrorKind TxAttenuation := do
  let (value, _) ← readU16 ⟨input, 0⟩
  return { value }

/-- Source `field::TxAttenuationDb`. -/
structure TxAttenuationDb where
  value : Nat
  deriving DecidableEq, Repr

def TxAttenuationDb.from_bytes (input : List Nat) :
    Except ErrorKind TxAttenuationDb := do
  let (value, _) ← readU16 ⟨input, 0⟩
  return { value }

/-- Source `field::TxPower` (signed dBm). -/
structure TxPower where
  value : Int
  deriving DecidableEq, Repr

def TxPower.from_bytes (input : List Nat) : Except ErrorKind TxPower := do
  let (value, _) ← readI8 ⟨input, 0⟩
  return { value }

/-- Source `field::Antenna`. -/
structure Antenna where
  value : Nat
  deriving DecidableEq, Repr

def Antenna.from_bytes (input : List Nat) : Except ErrorKind Antenna := do
  let (value, _) ← readU8 ⟨input, 0⟩
  return { value }

/-- Source `field::RxFlags`. -/
structure RxFlags where
  bad_plcp : Bool
  deriving DecidableEq, Repr

def RxFlags.from_bytes (input : List Nat) : Except ErrorKind RxFlags := do
  let (flags, _) ← readU16 ⟨input, 0⟩
  return { bad_plcp := is_flag_set flags 0x0002 }

/-- Source `field::TxFlags`. Note the source reads a single byte (`read_u8`)
although the declared size of the field is 2. -/
structure TxFlags where
  fail : Bool
  cts : Bool
  rts : Bool
  no_ack : Bool
  no_seq : Bool
  deriving DecidableEq, Repr

def TxFlags.from_bytes (input : List Nat) : Except ErrorKind TxFlags := do
  let (flags, _) ← readU8 ⟨input, 0⟩
  return {
    fail := is_flag_set flags 0x0001
    cts := is_flag_set flags 0x0002
    rts := is_flag_set flags 0x0004
    no_ack := is_flag_set flags 0x0008
    no_seq := is_flag_set flags 0x0010 }

/-- Source `field::RtsRetries`. -/
structure RtsRetries where
  value : Nat
  deriving DecidableEq, Repr

def RtsRetries.from_bytes (input : List Nat) :
    Except ErrorKind RtsRetries := do
  let (value, _) ← readU8 ⟨input, 0⟩
  return { value }

/-- Source `field::DataRetries`. -/
structure DataRetries where
  value : Nat
  deriving DecidableEq, Repr

def DataRetries.from_bytes (input : List Nat) :
    Except ErrorKind DataRetries := do
  let (value, _) ← readU8 ⟨input, 0⟩
  return { value }

/-- Source `field::XChannelFlags`. -/
structure XChannelFlags where
  turbo : Bool
  cck : Bool
  ofdm : Bool
  ghz2 : Bool
  ghz5 : Bool
  passive : Bool
  dynamic : Bool
  gfsk : Bool
  gsm : Bool
  sturbo : Bool
  half : Bool
  quarter : Bool
  ht20 : Bool
  ht40u : Bool
  ht40d : Bool
  deriving DecidableEq, Repr

/-- Source `field::XChannel`. -/
structure XChannel where
  flags : XChannelFlags
  freq : Nat
  channel : Nat
  max_power : Nat
  deriving DecidableEq, Repr

def XChannel.from_bytes (input : List Nat) : Except ErrorKind XChannel := do
  let c : RCursor := ⟨input, 0⟩
  let (flags, c) ← readU32 c
  let (freq, c) ← readU16 c
  let (channel, c) ← readU8 c
  let (max_power, _) ← readU8 c
  return {
    flags := {
      turbo := is_flag_set flags 0x00000010
      cck := is_flag_set flags 0x00000020
      ofdm := is_flag_set flags 0x00000040
      ghz2 := is_flag_set flags 0x00000080
      ghz5 := is_flag_set flags 0x00000100
      passive := is_flag_set flags 0x00000200
      dynamic := is_flag_set flags 0x00000400
      gfsk := is_flag_set flags 0x00000800
      gsm := is_flag_set flags 0x00001000
      sturbo := is_flag_set flags 0x00002000
      half := is_flag_set flags 0x00004000
      quarter := is_flag_set flags 0x00008000
      ht20 := is_flag_set flags 0x00010000
      ht40u := is_flag_set flags 0x00020000
      ht40d := is_flag_set flags 0x00040000 }
    freq
    channel
    max_power }

/-- Source `field::Mcs`. -/
structure Mcs where
  bw : Option Bandwidth
  index : Option Nat
  gi : Option GuardInterval
  format : Option HtFormat
  fec : Option Fec
  stbc : Option Nat
  ness : Option Nat
  datarate : Option ℚ
  deriving DecidableEq, Repr

def Mcs.from_bytes (input : List Nat) : Except ErrorKind Mcs := do
  let c : RCursor := ⟨input, 0⟩
  let mut mcs : Mcs := ⟨none, none, none, none, none, none, none, none⟩
  let (known, c) ← readU8 c
  let (flags, c) ← readU8 c
  let (index, _) ← readU8 c
  if is_flag_set known 0x01 then
    mcs := { mcs with bw := some (← Bandwidth.new (flags &&& 0x03)) }
  if is_flag_set known 0x02 then
    mcs := { mcs with index := some index }
  if is_flag_set known 0x04 then
    mcs := { mcs with gi := some (if is_flag_set flags 0x04 then
      GuardInterval.Short else GuardInterval.Long) }
  if is_flag_set known 0x08 then
    mcs := { mcs with format := some (if is_flag_set flags 0x08 then
      HtFormat.Greenfield else HtFormat.Mixed) }
  if is_flag_set known 0x10 then
    mcs := { mcs with fec := some (if is_flag_set flags 0x10 then
      Fec.Ldpc else Fec.Bcc) }
  if is_flag_set known 0x20 then
    mcs := { mcs with stbc := some (bits_as_int flags 5 2) }
  if is_flag_set known 0x40 then
    -- Rust precedence parses `known & 0x80 >> 6 | flags & 0x80 >> 7` as
    -- `(known & (0x80 >> 6)) | (flags & (0x80 >> 7))`.
    mcs := { mcs with
      ness := some ((known &&& (0x80 >>> 6)) ||| (flags &&& (0x80 >>> 7))) }
  match mcs.bw, mcs.gi with
  | some bw, some gi =>
    mcs := { mcs with datarate := some (← ht_rate index bw gi) }
  | _, _ => pure ()
  return mcs

/-- Source `field::AmpduStatus`. -/
structure AmpduStatus where
  reference : Nat
  zero_length : Option Bool
  last : Option Bool
  delimiter_crc : Option Nat
  deriving DecidableEq, Repr

def AmpduStatus.from_bytes (input : List Nat) :
    Except ErrorKind AmpduStatus := do
  let c : RCursor := ⟨input, 0⟩
  let mut ampdu : AmpduStatus := ⟨0, none, none, none⟩
  let (reference, c) ← readU32 c
  ampdu := { ampdu with reference }
  let (flags, c) ← readU16 c
  let (delim_crc, _) ← readU8 c
  if is_flag_set flags 0x0001 then
    ampdu := { ampdu with zero_length := some (is_flag_set flags 0x0002) }
  if is_flag_set flags 0x0004 then
    ampdu := { ampdu with last := some (is_flag_set flags 0x0008) }
  if !is_flag_set flags 0x0010 && is_flag_set flags 0x0020 then
    ampdu := { ampdu with delimiter_crc := some delim_crc }
  return ampdu

/-- Modelled from the spec (missing `ext.rs`): a per-user VHT record, with
the fields the source constructs. -/
structure VhtUser where
  index : Nat
  fec : Fec
  nss : Nat
  nsts : Nat
  datarate : Option ℚ
  deriving DecidableEq, Repr

/-- Source `field::Vht`. -/
structure Vht where
  stbc : Option Bool
  txop_ps : Option Bool
  gi : Option GuardInterval
  sgi_nsym_da : Option Bool
  ldpc_extra : Option Bool
  beamformed : Option Bool
  bw : Option Bandwidth
  group_id : Option Nat
  partial_aid : Option Nat
  users : List (Option VhtUser)
  deriving DecidableEq, Repr

def Vht.from_bytes (input : List Nat) : Except ErrorKind Vht := do
  let c : RCursor := ⟨input, 0⟩
  let mut vht : Vht :=
    ⟨none, none, none, none, none, none, none, none, none,
      [none, none, none, none]⟩
  let (known, c) ← readU16 c
  let (flags, c) ← readU8 c
  let (bandwidth, c) ← readU8 c
  let (mcs_nss, c) := readInto 4 c
  let (coding, c) ← readU8 c
  let (group_id, c) ← readU8 c
  let (partial_aid, _) ← readU16 c
  if is_flag_set known 0x0001 then
    vht := { vht with stbc := some (is_flag_set flags 0x01) }
  if is_flag_set known 0x0002 then
    vht := { vht with txop_ps := some (is_flag_set flags 0x02) }
  if is_flag_set known 0x0004 then
    vht := { vht with gi := some (if flags &&& 0x04 > 0 then
      GuardInterval.Short else GuardInterval.Long) }
  if is_flag_set known 0x0008 then
    vht := { vht with sgi_nsym_da := some (is_flag_set flags 0x08) }
  if is_flag_set known 0x0010 then
    vht := { vht with ldpc_extra := some (is_flag_set flags 0x10) }
  if is_flag_set known 0x0020 then
    vht := { vht with beamformed := some (is_flag_set flags 0x20) }
  if is_flag_set known 0x0040 then
    vht := { vht with bw := some (← Bandwidth.new (bandwidth &&& 0x1f)) }
  if is_flag_set known 0x0080 then
    vht := { vht with group_id := some group_id }
  if is_flag_set known 0x0100 then
    vht := { vht with partial_aid := some partial_aid }
  for p in mcs_nss.enum do
    let i := p.1
    let user := p.2
    let nss := user &&& 0x0f
    if nss == 0 then
      continue
    -- Rust precedence parses `user & 0xf0 >> 4` as `user & (0xf0 >> 4)`.
    let index := user &&& (0xf0 >>> 4)
    let nsts := nss <<< (flags &&& 0x01)
    let id := i
    let datarate : Option ℚ ←
      match vht.bw, vht.gi with
      | some bw, some gi => do
        pure (some (← vht_rate index bw gi nss))
      | _, _ => pure none
    -- Rust precedence parses `(coding & 2 ^ id) >> id` as
    -- `((coding & 2) ^ id) >> id`.
    vht := { vht with
      users := vht.users.set id (some {
        index
        fec := match ((coding &&& 2) ^^^ id) >>> id with
          | 1 => Fec.Ldpc
          | _ => Fec.Bcc
        nss
        nsts
        datarate }) }
  return vht

/-- Source `field::Timestamp`. -/
structure Timestamp where
  timestamp : Nat
  unit : TimeUnit
  position : SamplingPosition
  accuracy : Option Nat
  deriving DecidableEq, Repr

def Timestamp.from_bytes (input : List Nat) :
    Except ErrorKind Timestamp := do
  let c : RCursor := ⟨input, 0⟩
  let (timestamp, c) ← readU64 c
  let (acc0, c) ← readU16 c
  let mut accuracy : Option Nat := some acc0
  let (unit_position, c) ← readU8 c
  let unit ← TimeUnit.new (unit_position &&& 0x0f)
  -- Rust precedence parses `unit_position & 0xf0 >> 4` as
  -- `unit_position & (0xf0 >> 4)`.
  let position ← SamplingPosition.from (unit_position &&& (0xf0 >>> 4))
  let (flags, _) ← readU8 c
  if !is_flag_set flags 0x02 then
    accuracy := none
  return { timestamp, unit, position, accuracy }

/-- Source `field::VendorNamespace`. -/
structure VendorNamespace where
  oui : List Nat
  sub_namespace : Nat
  skip_length : Nat
  deriving DecidableEq, Repr

def VendorNamespace.from_bytes (input : List Nat) :
    Except ErrorKind VendorNamespace := do
  let c : RCursor := ⟨input, 0⟩
  let (oui, c) := readInto 3 c
  let (sub_namespace, c) ← readU8 c
  let (skip_length, _) ← readU16 c
  return { oui, sub_namespace, skip_length }

/-- The `Field` trait of `field/mod.rs` (named `RField` here because Lean
already has an algebraic `Field` class): any parseable field. -/
class RField (α : Type) where
  from_bytes : List Nat → Except ErrorKind α

instance instRFieldHeader : RField Header := ⟨Header.from_bytes⟩

instance instRFieldVendorNamespace : RField VendorNamespace := ⟨VendorNamespace.from_bytes⟩

instance instRFieldTsft : RField Tsft := ⟨Tsft.from_bytes⟩

instance instRFieldFlags : RField Flags := ⟨Flags.from_bytes⟩

instance instRFieldRate : RField Rate := ⟨Rate.from_bytes⟩

instance instRFieldChannel : RField Channel := ⟨Channel.from_bytes⟩

instance instRFieldFhss : RField Fhss := ⟨Fhss.from_bytes⟩

instance instRFieldAntennaSignal : RField AntennaSignal := ⟨AntennaSignal.from_bytes⟩

instance instRFieldAntennaSignalDb : RField AntennaSignalDb := ⟨AntennaSignalDb.from_bytes⟩

instance instRFieldAntennaNoise : RField AntennaNoise := ⟨AntennaNoise.from_bytes⟩

instance instRFieldAntennaNoiseDb : RField AntennaNoiseDb := ⟨AntennaNoiseDb.from_bytes⟩

instance instRFieldLockQuality : RField LockQuality := ⟨LockQuality.from_bytes⟩

instance instRFieldTxAttenuation : RField TxAttenuation := ⟨TxAttenuation.from_bytes⟩

instance instRFieldTxAttenuationDb : RField TxAttenuationDb := ⟨TxAttenuationDb.from_bytes⟩

instance instRFieldTxPower : RField TxPower := ⟨TxPower.from_bytes⟩

instance instRFieldAntenna : RField Antenna := ⟨Antenna.from_bytes⟩

instance instRFieldRxFlags : RField RxFlags := ⟨RxFlags.from_bytes⟩

instance instRFieldTxFlags : RField TxFlags := ⟨TxFlags.from_bytes⟩

instance instRFieldRtsRetries : RField RtsRetries := ⟨RtsRetries.from_bytes⟩

instance instRFieldDataRetries : RField DataRetries := ⟨DataRetries.from_bytes⟩

instance instRFieldXChannel : RField XChannel := ⟨XChannel.from_bytes⟩

instance instRFieldMcs : RField Mcs := ⟨Mcs.from_bytes⟩

instance instRFieldAmpduStatus : RField AmpduStatus := ⟨AmpduStatus.from_bytes⟩

instance instRFieldVht : RField Vht := ⟨Vht.from_bytes⟩

instance instRFieldTimestamp : RField Timestamp := ⟨Timestamp.from_bytes⟩

/-- Wrapper `field::from_bytes`: parse any field, attaching the `InvalidFormat`
error kind to any failure. -/
def field.from_bytes (α : Type) [RField α] (input : List Nat) :
    Except ErrorKind α :=
  (RField.from_bytes input : Except ErrorKind α).mapError
    (fun _ => .InvalidFormat)

/-- Wrapper `field::from_bytes_some`: like `field::from_bytes` but wrapping the
value in `Some`. -/
def from_bytes_some (α : Type) [RField α] (input : List Nat) :
    Except ErrorKind (Option α) :=
  ((RField.from_bytes input : Except ErrorKind α).mapError
    (fun _ => .InvalidFormat)).map some

/-- Namespace record `ns::Radiotap`: the parsed default namespace (its hidden
`__non_exhaustive: ()` marker field carries no data and is omitted). -/
structure Radiotap where
  tsft : Option Tsft
  flags : Option Flags
  rate : Option Rate
  channel : Option Channel
  fhss : Option Fhss
  antenna_signal : Option AntennaSignal
  antenna_noise : Option AntennaNoise
  lock_quality : Option LockQuality
  tx_attenuation : Option TxAttenuation
  tx_attenuation_db : Option TxAttenuationDb
  tx_power : Option TxPower
  antenna : Option Antenna
  antenna_signal_db : Option AntennaSignalDb
  antenna_noise_db : Option AntennaNoiseDb
  rx_flags : Option RxFlags
  tx_flags : Option TxFlags
  rts_retries : Option RtsRetries
  data_retries : Option DataRetries
  xchannel : Option XChannel
  mcs : Option Mcs
  ampdu_status : Option AmpduStatus
  vht : Option Vht
  timestamp : Option Timestamp
  deriving DecidableEq, Repr

/-- Constructor `Radiotap::new`: all fields unparsed. -/
def Radiotap.new : Radiotap :=
  ⟨none, none, none, none, none, none, none, none, none, none, none, none,
    none, none, none, none, none, none, none, none, none, none, none⟩

/-- Update `Namespace::update` for `Radiotap`: route the decoded field into the
corresponding optional slot; the `_ => {}` catch-all of the source leaves
the record unchanged. -/
def Radiotap.update (r : Radiotap) (kind : RadiotapKind) (data : List Nat) :
    Except ErrorKind Radiotap :=
  match kind with
  | .Tsft => (from_bytes_some Tsft data).map fun v => { r with tsft := v }
  | .Flags => (from_bytes_some Flags data).map fun v => { r with flags := v }
  | .Rate => (from_bytes_some Rate data).map fun v => { r with rate := v }
  | .Channel =>
    (from_bytes_some Channel data).map fun v => { r with channel := v }
  | .Fhss => (from_bytes_some Fhss data).map fun v => { r with fhss := v }
  | .AntennaSignal =>
    (from_bytes_some AntennaSignal data).map fun v =>
      { r with antenna_signal := v }
  | .AntennaNoise =>
    (from_bytes_some AntennaNoise data).map fun v =>
      { r with antenna_noise := v }
  | .LockQuality =>
    (from_bytes_some LockQuality data).map fun v =>
      { r with lock_quality := v }
  | .TxAttenuation =>
    (from_bytes_some TxAttenuation data).map fun v =>
      { r with tx_attenuation := v }
  | .TxAttenuationDb =>
    (from_bytes_some TxAttenuationDb data).map fun v =>
      { r with tx_attenuation_db := v }
  | .TxPower =>
    (from_bytes_some TxPower data).map fun v => { r with tx_power := v }
  | .Antenna =>
    (from_bytes_some Antenna data).map fun v => { r with antenna := v }
  | .AntennaSignalDb =>
    (from_bytes_some AntennaSignalDb data).map fun v =>
      { r with antenna_signal_db := v }
  | .AntennaNoiseDb =>
    (from_bytes_some AntennaNoiseDb data).map fun v =>
      { r with antenna_noise_db := v }
  | .RxFlags =>
    (from_bytes_some RxFlags data).map fun v => { r with rx_flags := v }
  | .TxFlags =>
    (from_bytes_some TxFlags data).map fun v => { r with tx_flags := v }
  | .RtsRetries =>
    (from_bytes_some RtsRetries data).map fun v => { r with rts_retries := v }
  | .DataRetries =>
    (from_bytes_some DataRetries data).map fun v =>
      { r with data_retries := v }
  | .XChannel =>
    (from_bytes_some XChannel data).map fun v => { r with xchannel := v }
  | .Mcs => (from_bytes_some Mcs data).map fun v => { r with mcs := v }
  | .AmpduStatus =>
    (from_bytes_some AmpduStatus data).map fun v =>
      { r with ampdu_status := v }
  | .Vht => (from_bytes_some Vht data).map fun v => { r with vht := v }
  | .Timestamp =>
    (from_bytes_some Timestamp data).map fun v => { r with timestamp := v }
  | .nonexhaustive => .ok r

/-- Agreement: `r'` agrees with `r` on every optional slot other than the one that
belongs to kind `k`. -/
def unchangedExcept (k : RadiotapKind) (r r' : Radiotap) : Prop :=
  (k ≠ .Tsft → r'.tsft = r.tsft) ∧
  (k ≠ .Flags → r'.flags = r.flags) ∧
  (k ≠ .Rate → r'.rate = r.rate) ∧
  (k ≠ .Channel → r'.channel = r.channel) ∧
  (k ≠ .Fhss → r'.fhss = r.fhss) ∧
  (k ≠ .AntennaSignal → r'.antenna_signal = r.antenna_signal) ∧
  (k ≠ .AntennaNoise → r'.antenna_noise = r.antenna_noise) ∧
  (k ≠ .LockQuality → r'.lock_quality = r.lock_quality) ∧
  (k ≠ .TxAttenuation → r'.tx_attenuation = r.tx_attenuation) ∧
  (k ≠ .TxAttenuationDb → r'.tx_attenuation_db = r.tx_attenuation_db) ∧
  (k ≠ .TxPower → r'.tx_power = r.tx_power) ∧
  (k ≠ .Antenna → r'.antenna = r.antenna) ∧
  (k ≠ .AntennaSignalDb → r'.antenna_signal_db = r.antenna_signal_db) ∧
  (k ≠ .AntennaNoiseDb → r'.antenna_noise_db = r.antenna_noise_db) ∧
  (k ≠ .RxFlags → r'.rx_flags = r.rx_flags) ∧
  (k ≠ .TxFlags → r'.tx_flags = r.tx_flags) ∧
  (k ≠ .RtsRetries → r'.rts_retries = r.rts_retries) ∧
  (k ≠ .DataRetries → r'.data_retries = r.data_retries) ∧
  (k ≠ .XChannel → r'.xchannel = r.xchannel) ∧
  (k ≠ .Mcs → r'.mcs = r.mcs) ∧
  (k ≠ .AmpduStatus → r'.ampdu_status = r.ampdu_status) ∧
  (k ≠ .Vht → r'.vht = r.vht) ∧
  (k ≠ .Timestamp → r'.timestamp = r.timestamp)

/-- Alignment `impl Align for Cursor` (`lib.rs`): the new position is
`(p + align − 1) & !(align − 1)` in wrapping `u64` arithmetic (`!` is the
64-bit complement, i.e. xor with `2^64 − 1`). -/
def alignPos (p a : Nat) : Nat :=
  ((p + a - 1) % 2 ^ 64) &&& ((2 ^ 64 - 1) ^^^ ((a - 1) % 2 ^ 64))

theorem readU32_ok {c : RCursor} {w : Nat} {c' : RCursor}
    (h : readU32 c = .ok (w, c')) :
    c'.data = c.data ∧ c'.pos = c.pos + 4 ∧ c.pos + 4 ≤ c.data.length := by
  simp only [readU32, readN] at h
  split at h
  · simp only [Except.map, Except.ok.injEq, Prod.mk.injEq] at h
    obtain ⟨-, h2⟩ := h
    subst h2
    simp_all
  · simp [Except.map] at h

/-- One-step unfolding of the present-word loop (without the dependent
match binder, for convenient rewriting). -/
theorem readPresentLoop_step (c : RCursor) (acc : List Nat) :
    readPresentLoop c acc =
      match readU32 c with
      | .error e => .error e
      | .ok (w, c') =>
        if is_flag_set w (1 <<< 31) then .ok (acc ++ [w], c')
        else readPresentLoop c' (acc ++ [w]) := by
  rw [readPresentLoop.eq_def]
  cases readU32 c with
  | error e => rfl
  | ok v => cases v; rfl

theorem map_error {α β : Type} {x : Except ErrorKind α} {f : α → β}
    {e : ErrorKind} (h : x.map f = .error e) : x = .error e := by
  cases x with
  | ok a => simp [Except.map] at h
  | error e' => simp [Except.map] at h; rw [h]

theorem readN_error {k : Nat} {c : RCursor} {e : ErrorKind}
    (h : readN k c = .error e) : e = .IoError := by
  simp only [readN] at h
  split at h
  · cases h
  · cases h; rfl

theorem readU8_error {c : RCursor} {e : ErrorKind}
    (h : readU8 c = .error e) : e = .IoError :=
  readN_error (map_error h)

theorem readU16_error {c : RCursor} {e : ErrorKind}
    (h : readU16 c = .error e) : e = .IoError :=
  readN_error (map_error h)

theorem readU32_error {c : RCursor} {e : ErrorKind}
    (h : readU32 c = .error e) : e = .IoError :=
  readN_error (map_error h)

/-- The present-word loop can only fail with `IoError` (the context
attached to `read_u32` in the source). -/
theorem readPresentLoop_error :
    ∀ (n : Nat) (c : RCursor) (acc : List Nat) (e : ErrorKind),
      c.data.length - c.pos ≤ n →
      readPresentLoop c acc = .error e → e = .IoError := by
  intro n
  induction n with
  | zero =>
    intro c acc e hle h
    rw [readPresentLoop_step] at h
    cases hr : readU32 c with
    | error e' =>
      rw [hr] at h
      cases h
      exact readU32_error hr
    | ok v =>
      obtain ⟨w, c'⟩ := v
      obtain ⟨h1, h2, h3⟩ := readU32_ok hr
      omega
  | succ n ih =>
    intro c acc e hle h
    rw [readPresentLoop_step] at h
    cases hr : readU32 c with
    | error e' =>
      rw [hr] at h
      cases h
      exact readU32_error hr
    | ok v =>
      obtain ⟨w, c'⟩ := v
      rw [hr] at h
      obtain ⟨h1, h2, h3⟩ := readU32_ok hr
      have h' : (if is_flag_set w (1 <<< 31) = true then
          Except.ok (acc ++ [w], c') else readPresentLoop c' (acc ++ [w])) =
          Except.error e := h
      split at h'
      · simp at h'
      · exact ih c' (acc ++ [w]) e (by rw [h1, h2]; omega) h'

/-- Claim C1 (code bug): the spec says the present-word chain ends at the
first word with bit 31 *clear* (bit 31 set = "more words follow"), but the
source breaks out of the loop when bit 31 is *set*. Evaluated at the
failing inputs: a single all-zero present word (a valid terminator per the
claim) makes parsing fail with `IoError`, while a single word `0x80000000`
(which per the claim announces more words) is accepted as a complete
chain. -/
theorem c1_presence_chain_inverted :
    Header.from_bytes [0, 0, 8, 0, 0, 0, 0, 0] = .error .IoError ∧
    Header.from_bytes [0, 0, 8, 0, 0, 0, 0, 128] =
      .ok { version := 0, length := 8, size := 8, present := [0x80000000] } ∧
    Nat.testBit 0x80000000 31 = true := by
  refine ⟨?_, ?_, by decide⟩ <;>
    simp [Header.from_bytes, readPresentLoop_step, readU8, readU16, readU32,
      readN, leVal, is_flag_set, bind, Except.bind, Except.map]

/-- Claim C7: header parsing fails with `UnsupportedVersion` exactly when
the first input octet is nonzero; no later step raises
`UnsupportedVersion`. -/
theorem c7_unsupported_version_iff (input : List Nat)
    (hb : ∀ b ∈ input, b < 256) :
    (Header.from_bytes input = .error .UnsupportedVersion ↔
      ∃ b, input.head? = some b ∧ b ≠ 0) := by
  cases input with
  | nil =>
    simp [Header.from_bytes, readU8, readN, leVal, bind, Except.bind,
      Except.map]
  | cons b rest =>
    have hb0 : b < 256 := hb b (by simp)
    have h1 : readU8 ⟨b :: rest, 0⟩ = .ok (b, ⟨b :: rest, 1⟩) := by
      simp [readU8, readN, leVal, Except.map, Nat.mod_eq_of_lt hb0]
    by_cases hbz : b = 0
    · subst hbz
      constructor
      · intro h
        exfalso
        simp only [Header.from_bytes, bind, Except.bind, h1] at h
        rw [if_neg (by simp)] at h
        cases h2 : readU8 ⟨0 :: rest, 1⟩ with
        | error e =>
          have he := readU8_error h2
          subst he
          rw [h2] at h
          simp at h
        | ok p =>
          obtain ⟨pad, c2⟩ := p
          rw [h2] at h
          simp only [] at h
          cases h3 : readU16 c2 with
          | error e =>
            have he := readU16_error h3
            subst he
            rw [h3] at h
            simp at h
          | ok q =>
            obtain ⟨len, c3⟩ := q
            rw [h3] at h
            simp only [] at h
            split at h
            · simp at h
            · cases h4 : readPresentLoop c3 [] with
              | error e =>
                have he := readPresentLoop_error (c3.data.length - c3.pos)
                  c3 [] e (le_refl _) h4
                subst he
                rw [h4] at h
                simp at h
              | ok r =>
                rw [h4] at h
                simp at h
      · rintro ⟨b', hb', hne⟩
        exact absurd (by simpa using hb'.symm) hne
    · simp only [Header.from_bytes, bind, Except.bind, h1]
      rw [if_pos (by simpa using hbz)]
      simp [hbz]

theorem c7_witness :
    (∀ b ∈ ([1] : List Nat), b < 256) ∧
    (Header.from_bytes [1] = .error .UnsupportedVersion ↔
      ∃ b, ([1] : List Nat).head? = some b ∧ b ≠ 0) :=
  ⟨by decide, c7_unsupported_version_iff [1] (by decide)⟩

/-- Claim C8: with a zero version octet and at least the 4 fixed header
bytes present, header parsing fails with `InvalidLength` exactly when the
input is shorter than the declared length. -/
theorem c8_invalid_length_iff (input : List Nat)
    (hlen : 4 ≤ input.length) (h0 : input.head? = some 0) :
    (Header.from_bytes input = .error .InvalidLength ↔
      input.length < declaredLength input) := by
  cases input with
  | nil => simp at h0
  | cons b rest =>
    have hb : b = 0 := by simpa using h0
    subst hb
    have hr : 3 ≤ rest.length := by simp at hlen; omega
    have e1 : readU8 ⟨0 :: rest, 0⟩ = .ok (0, ⟨0 :: rest, 1⟩) := by
      simp [readU8, readN, leVal, Except.map]
    have e2 : readU8 ⟨0 :: rest, 1⟩ =
        .ok (leVal ((rest.take 1).map (· % 256)), ⟨0 :: rest, 2⟩) := by
      have hc : 1 ≤ rest.length := by omega
      simp [readU8, readN, Except.map, hc]
    have e3 : readU16 ⟨0 :: rest, 2⟩ =
        .ok (declaredLength (0 :: rest), ⟨0 :: rest, 4⟩) := by
      simp [readU16, readN, Except.map, declaredLength, hr]
    constructor
    · intro h
      by_contra hnl
      simp only [Header.from_bytes, bind, Except.bind, e1] at h
      rw [if_neg (by simp)] at h
      rw [e2] at h
      simp only [Except.bind] at h
      rw [e3] at h
      simp only [Except.bind] at h
      rw [if_neg hnl] at h
      cases h4 : readPresentLoop ⟨0 :: rest, 4⟩ [] with
      | error e =>
        have he := readPresentLoop_error
          ((RCursor.mk (0 :: rest) 4).data.length - (RCursor.mk (0 :: rest) 4).pos)
          ⟨0 :: rest, 4⟩ [] e (le_refl _) h4
        subst he
        rw [h4] at h
        simp at h
      | ok r =>
        rw [h4] at h
        simp at h
    · intro h
      simp only [Header.from_bytes, bind, Except.bind, e1]
      rw [if_neg (by simp)]
      rw [e2]
      simp only [Except.bind]
      rw [e3]
      simp only [Except.bind]
      rw [if_pos h]

theorem c8_witness :
    (4 ≤ ([0, 0, 9, 0] : List Nat).length) ∧
    (([0, 0, 9, 0] : List Nat).head? = some 0) ∧
    (Header.from_bytes [0, 0, 9, 0] = .error .InvalidLength ↔
      ([0, 0, 9, 0] : List Nat).length < declaredLength [0, 0, 9, 0]) :=
  ⟨by decide, by decide, c8_invalid_length_iff [0, 0, 9, 0] (by decide) (by decide)⟩

/-- Claim C9: every field kind reachable from presence bits 0..=22 of the
default namespace has an alignment that is a power of two at most 8
(i.e. 1, 2, 4 or 8) and a strictly positive size. -/
theorem c9_align_size_invariant :
    ∀ b : Fin 23,
      match RadiotapKind.from_bit b.val with
      | .ok k =>
        (k.align = 1 ∨ k.align = 2 ∨ k.align = 4 ∨ k.align = 8) ∧ 0 < k.size
      | .error _ => False := by
  intro b
  fin_cases b <;>
    simp [RadiotapKind.from_bit, RadiotapKind.align, RadiotapKind.size]

/-! ## Types from the missing `src/field/ext.rs`

The crate declares `pub mod ext;` and uses its items, but `ext.rs` is not
among the sources; everything in this section is modelled from the
specification. -/

/-- Claim C2 (code bug): the claim says a VHT user record gets
`index = (mcs_nss[i] >> 4) & 0x0F` and `fec = Ldpc` when bit `i` of the
coding byte is set. Rust precedence makes the source compute
`index = mcs_nss[i] & 0x0F` (= nss) and `fec` from `((coding & 2) ^ id)
>> id` instead. Evaluated at `mcs_nss[0] = 0x21`, `coding = 0x01`: the
claim demands `index = 2` and `fec = Ldpc` (bit 0 of coding is set), the
code produces `index = 1` and `fec = Bcc`. -/
theorem c2_vht_user_bug :
    Vht.from_bytes [0, 0, 0, 0, 0x21, 0, 0, 0, 0x01, 0, 0, 0] =
      .ok { stbc := none, txop_ps := none, gi := none, sgi_nsym_da := none,
            ldpc_extra := none, beamformed := none, bw := none,
            group_id := none, partial_aid := none,
            users := [some ⟨1, .Bcc, 1, 1, none⟩, none, none, none] } ∧
    (0x21 >>> 4) &&& 0x0F = 2 ∧
    Nat.testBit 0x01 0 = true := by
  exact ⟨by decide, by decide, by decide⟩

/-- Claim C3 (code bug): the claim says `ness = ((known & 0x80) >> 6) |
((flags & 0x80) >> 7)`; Rust precedence makes the source compute
`(known & 2) | (flags & 1)`. At `known = 0xC0`, `flags = 0x80` the claim
demands `ness = 3`, the code produces `ness = 0`. -/
theorem c3_mcs_ness_bug :
    Mcs.from_bytes [0xC0, 0x80, 0x00] =
      .ok { bw := none, index := none, gi := none, format := none,
            fec := none, stbc := none, ness := some 0, datarate := none } ∧
    ((0xC0 &&& 0x80) >>> 6) ||| ((0x80 &&& 0x80) >>> 7) = 3 := by
  exact ⟨by decide, by decide⟩

/-- Claim C4 (code bug): the claim says the sampling position comes from
the high nibble `(unit_position & 0xF0) >> 4`; Rust precedence makes the
source compute `unit_position & 0x0F` (the low nibble again). At
`unit_position = 0x10` the claim demands the position decoded from 1, the
code decodes it from 0. -/
theorem c4_timestamp_position_bug :
    Timestamp.from_bytes [0, 0, 0, 0, 0, 0, 0, 0, 0, 0, 0x10, 0] =
      .ok { timestamp := 0, unit := .Milliseconds,
            position := .FirstMpduBit, accuracy := none } ∧
    (0x10 &&& 0xF0) >>> 4 = 1 ∧
    SamplingPosition.from 1 = .ok .PlcpSigAcquired := by
  exact ⟨by decide, by decide, by decide⟩

theorem readN_short {k : Nat} {c : RCursor} (h : c.data.length < c.pos + k) :
    readN k c = .error .IoError := by
  simp [readN]
  omega

theorem mapError_eq_invalid {α : Type} {x : Except ErrorKind α}
    (h : ∀ v, x ≠ .ok v) :
    x.mapError (fun _ => ErrorKind.InvalidFormat) = .error .InvalidFormat := by
  cases x with
  | ok v => exact absurd rfl (h v)
  | error e => rfl

/-- Claim C6 (counterexample): two field types decode successfully on
inputs strictly shorter than their declared size: `TxFlags` (declared
size 2, reads only 1 byte) succeeds on a 1-byte input, and `AmpduStatus`
(declared size 8, reads only 7 bytes) succeeds on a 7-byte input. -/
theorem c6_short_input_counterexample :
    field.from_bytes TxFlags [0] =
      .ok { fail := false, cts := false, rts := false, no_ack := false,
            no_seq := false } ∧
    RadiotapKind.size .TxFlags = 2 ∧
    field.from_bytes AmpduStatus [1, 0, 0, 0, 0x21, 0, 7] =
      .ok { reference := 1, zero_length := some false, last := none,
            delimiter_crc := some 7 } ∧
    RadiotapKind.size .AmpduStatus = 8 := by
  exact ⟨by decide, by decide, by decide, by decide⟩

set_option maxHeartbeats 2000000 in
/-- Claim C6 (amended): for every field type except `TxFlags` and
`AmpduStatus`, any input shorter than the declared size fails through
`field::from_bytes` with `InvalidFormat`; `TxFlags` reads only 1 byte
(declared size 2) and `AmpduStatus` only 7 (declared size 8), so for
these two the failure threshold is 1 resp. 7 bytes. -/
theorem c6_short_input_amended :
    (∀ l : List Nat, l.length < 8 →
      field.from_bytes Tsft l = .error .InvalidFormat) ∧
    (∀ l : List Nat, l.length < 1 →
      field.from_bytes Flags l = .error .InvalidFormat) ∧
    (∀ l : List Nat, l.length < 1 →
      field.from_bytes Rate l = .error .InvalidFormat) ∧
    (∀ l : List Nat, l.length < 4 →
      field.from_bytes Channel l = .error .InvalidFormat) ∧
    (∀ l : List Nat, l.length < 2 →
      field.from_bytes Fhss l = .error .InvalidFormat) ∧
    (∀ l : List Nat, l.length < 1 →
      field.from_bytes AntennaSignal l = .error .InvalidFormat) ∧
    (∀ l : List Nat, l.length < 1 →
      field.from_bytes AntennaNoise l = .error .InvalidFormat) ∧
    (∀ l : List Nat, l.length < 2 →
      field.from_bytes LockQuality l = .error .InvalidFormat) ∧
    (∀ l : List Nat, l.length < 2 →
      field.from_bytes TxAttenuation l = .error .InvalidFormat) ∧
    (∀ l : List Nat, l.length < 2 →
      field.from_bytes TxAttenuationDb l = .error .InvalidFormat) ∧
    (∀ l : List Nat, l.length < 1 →
      field.from_bytes TxPower l = .error .InvalidFormat) ∧
    (∀ l : List Nat, l.length < 1 →
      field.from_bytes Antenna l = .error .InvalidFormat) ∧
    (∀ l : List Nat, l.length < 1 →
      field.from_bytes AntennaSignalDb l = .error .InvalidFormat) ∧
    (∀ l : List Nat, l.length < 1 →
      field.from_bytes AntennaNoiseDb l = .error .InvalidFormat) ∧
    (∀ l : List Nat, l.length < 2 →
      field.from_bytes RxFlags l = .error .InvalidFormat) ∧
    (∀ l : List Nat, l.length < 1 →
      field.from_bytes TxFlags l = .error .InvalidFormat) ∧
    (∀ l : List Nat, l.length < 1 →
      field.from_bytes RtsRetries l = .error .InvalidFormat) ∧
    (∀ l : List Nat, l.length < 1 →
      field.from_bytes DataRetries l = .error .InvalidFormat) ∧
    (∀ l : List Nat, l.length < 8 →
      field.from_bytes XChannel l = .error .InvalidFormat) ∧
    (∀ l : List Nat, l.length < 3 →
      field.from_bytes Mcs l = .error .InvalidFormat) ∧
    (∀ l : List Nat, l.length < 7 →
      field.from_bytes AmpduStatus l = .error .InvalidFormat) ∧
    (∀ l : List Nat, l.length < 12 →
      field.from_bytes Vht l = .error .InvalidFormat) ∧
    (∀ l : List Nat, l.length < 12 →
      field.from_bytes Timestamp l = .error .InvalidFormat) := by
  refine ⟨?_, ?_, ?_, ?_, ?_, ?_, ?_, ?_, ?_, ?_, ?_, ?_, ?_, ?_, ?_, ?_, ?_, ?_, ?_, ?_, ?_, ?_, ?_⟩
  · intro l hl
    have hc : ¬ (8 ≤ l.length) := by omega
    simp [hc, field.from_bytes, instRFieldTsft, Tsft.from_bytes, readU64, readN,
        leVal, Except.map, Except.mapError, bind, Except.bind, pure,
        Except.pure]
  · intro l hl
    have hc : ¬ (1 ≤ l.length) := by omega
    simp [hc, field.from_bytes, instRFieldFlags, Flags.from_bytes, readU8, readN,
        leVal, Except.map, Except.mapError, bind, Except.bind, pure,
        Except.pure]
  · intro l hl
    have hc : ¬ (1 ≤ l.length) := by omega
    simp [hc, field.from_bytes, instRFieldRate, Rate.from_bytes, readI8, readN,
        leVal, Except.map, Except.mapError, bind, Except.bind, pure,
        Except.pure]
  · intro l hl
    rcases l with _ | ⟨a, _ | ⟨b, _ | ⟨c, _ | ⟨d, t⟩⟩⟩⟩
    · simp [field.from_bytes, instRFieldChannel, Channel.from_bytes, readU16, readN,
        leVal, Except.map, Except.mapError, bind, Except.bind, pure,
        Except.pure]
    · simp [field.from_bytes, instRFieldChannel, Channel.from_bytes, readU16, readN,
        leVal, Except.map, Except.mapError, bind, Except.bind, pure,
        Except.pure]
    · simp [field.from_bytes, instRFieldChannel, Channel.from_bytes, readU16, readN,
        leVal, Except.map, Except.mapError, bind, Except.bind, pure,
        Except.pure]
    · simp [field.from_bytes, instRFieldChannel, Channel.from_bytes, readU16, readN,
        leVal, Except.map, Except.mapError, bind, Except.bind, pure,
        Except.pure]
    · simp only [List.length_cons] at hl
      omega
  · intro l hl
    rcases l with _ | ⟨a, _ | ⟨b, t⟩⟩
    · simp [field.from_bytes, instRFieldFhss, Fhss.from_bytes, readU8, readN,
        leVal, Except.map, Except.mapError, bind, Except.bind, pure,
        Except.pure]
    · simp [field.from_bytes, instRFieldFhss, Fhss.from_bytes, readU8, readN,
        leVal, Except.map, Except.mapError, bind, Except.bind, pure,
        Except.pure]
    · simp only [List.length_cons] at hl
      omega
  · intro l hl
    have hc : ¬ (1 ≤ l.length) := by omega
    simp [hc, field.from_bytes, instRFieldAntennaSignal, AntennaSignal.from_bytes, readI8, readN,
        leVal, Except.map, Except.mapError, bind, Except.bind, pure,
        Except.pure]
  · intro l hl
    have hc : ¬ (1 ≤ l.length) := by omega
    simp [hc, field.from_bytes, instRFieldAntennaNoise, AntennaNoise.from_bytes, readI8, readN,
        leVal, Except.map, Except.mapError, bind, Except.bind, pure,
        Except.pure]
  · intro l hl
    have hc : ¬ (2 ≤ l.length) := by omega
    simp [hc, field.from_bytes, instRFieldLockQuality, LockQuality.from_bytes, readU16, readN,
        leVal, Except.map, Except.mapError, bind, Except.bind, pure,
        Except.pure]
  · intro l hl
    have hc : ¬ (2 ≤ l.length) := by omega
    simp [hc, field.from_bytes, instRFieldTxAttenuation, TxAttenuation.from_bytes, readU16, readN,
        leVal, Except.map, Except.mapError, bind, Except.bind, pure,
        Except.pure]
  · intro l hl
    have hc : ¬ (2 ≤ l.length) := by omega
    simp [hc, field.from_bytes, instRFieldTxAttenuationDb, TxAttenuationDb.from_bytes, readU16, readN,
        leVal, Except.map, Except.mapError, bind, Except.bind, pure,
        Except.pure]
  · intro l hl
    have hc : ¬ (1 ≤ l.length) := by omega
    simp [hc, field.from_bytes, instRFieldTxPower, TxPower.from_bytes, readI8, readN,
        leVal, Except.map, Except.mapError, bind, Except.bind, pure,
        Except.pure]
  · intro l hl
    have hc : ¬ (1 ≤ l.length) := by omega
    simp [hc, field.from_bytes, instRFieldAntenna, Antenna.from_bytes, readU8, readN,
        leVal, Except.map, Except.mapError, bind, Except.bind, pure,
        Except.pure]
  · intro l hl
    have hc : ¬ (1 ≤ l.length) := by omega
    simp [hc, field.from_bytes, instRFieldAntennaSignalDb, AntennaSignalDb.from_bytes, readU8, readN,
        leVal, Except.map, Except.mapError, bind, Except.bind, pure,
        Except.pure]
  · intro l hl
    have hc : ¬ (1 ≤ l.length) := by omega
    simp [hc, field.from_bytes, instRFieldAntennaNoiseDb, AntennaNoiseDb.from_bytes, readU8, readN,
        leVal, Except.map, Except.mapError, bind, Except.bind, pure,
        Except.pure]
  · intro l hl
    have hc : ¬ (2 ≤ l.length) := by omega
    simp [hc, field.from_bytes, instRFieldRxFlags, RxFlags.from_bytes, readU16, readN,
        leVal, Except.map, Except.mapError, bind, Except.bind, pure,
        Except.pure]
  · intro l hl
    have hc : ¬ (1 ≤ l.length) := by omega
    simp [hc, field.from_bytes, instRFieldTxFlags, TxFlags.from_bytes, readU8, readN,
        leVal, Except.map, Except.mapError, bind, Except.bind, pure,
        Except.pure]
  · intro l hl
    have hc : ¬ (1 ≤ l.length) := by omega
    simp [hc, field.from_bytes, instRFieldRtsRetries, RtsRetries.from_bytes, readU8, readN,
        leVal, Except.map, Except.mapError, bind, Except.bind, pure,
        Except.pure]
  · intro l hl
    have hc : ¬ (1 ≤ l.length) := by omega
    simp [hc, field.from_bytes, instRFieldDataRetries, DataRetries.from_bytes, readU8, readN,
        leVal, Except.map, Except.mapError, bind, Except.bind, pure,
        Except.pure]
  · intro l hl
    rcases l with _ | ⟨a, _ | ⟨b, _ | ⟨c, _ | ⟨d, _ | ⟨e, _ | ⟨f, _ | ⟨g, _ | ⟨a1, t⟩⟩⟩⟩⟩⟩⟩⟩
    · simp [field.from_bytes, instRFieldXChannel, XChannel.from_bytes, readU32, readU16, readU8, readN,
        leVal, Except.map, Except.mapError, bind, Except.bind, pure,
        Except.pure]
    · simp [field.from_bytes, instRFieldXChannel, XChannel.from_bytes, readU32, readU16, readU8, readN,
        leVal, Except.map, Except.mapError, bind, Except.bind, pure,
        Except.pure]
    · simp [field.from_bytes, instRFieldXChannel, XChannel.from_bytes, readU32, readU16, readU8, readN,
        leVal, Except.map, Except.mapError, bind, Except.bind, pure,
        Except.pure]
    · simp [field.from_bytes, instRFieldXChannel, XChannel.from_bytes, readU32, readU16, readU8, readN,
        leVal, Except.map, Except.mapError, bind, Except.bind, pure,
        Except.pure]
    · simp [field.from_bytes, instRFieldXChannel, XChannel.from_bytes, readU32, readU16, readU8, readN,
        leVal, Except.map, Except.mapError, bind, Except.bind, pure,
        Except.pure]
    · simp [field.from_bytes, instRFieldXChannel, XChannel.from_bytes, readU32, readU16, readU8, readN,
        leVal, Except.map, Except.mapError, bind, Except.bind, pure,
        Except.pure]
    · simp [field.from_bytes, instRFieldXChannel, XChannel.from_bytes, readU32, readU16, readU8, readN,
        leVal, Except.map, Except.mapError, bind, Except.bind, pure,
        Except.pure]
    · simp [field.from_bytes, instRFieldXChannel, XChannel.from_bytes, readU32, readU16, readU8, readN,
        leVal, Except.map, Except.mapError, bind, Except.bind, pure,
        Except.pure]
    · simp only [List.length_cons] at hl
      omega
  · intro l hl
    rcases l with _ | ⟨a, _ | ⟨b, _ | ⟨c, t⟩⟩⟩
    · simp [field.from_bytes, instRFieldMcs, Mcs.from_bytes, readU8, readN,
        leVal, Except.map, Except.mapError, bind, Except.bind, pure,
        Except.pure]
    · simp [field.from_bytes, instRFieldMcs, Mcs.from_bytes, readU8, readN,
        leVal, Except.map, Except.mapError, bind, Except.bind, pure,
        Except.pure]
    · simp [field.from_bytes, instRFieldMcs, Mcs.from_bytes, readU8, readN,
        leVal, Except.map, Except.mapError, bind, Except.bind, pure,
        Except.pure]
    · simp only [List.length_cons] at hl
      omega
  · intro l hl
    rcases l with _ | ⟨a, _ | ⟨b, _ | ⟨c, _ | ⟨d, _ | ⟨e, _ | ⟨f, _ | ⟨g, t⟩⟩⟩⟩⟩⟩⟩
    · simp [field.from_bytes, instRFieldAmpduStatus, AmpduStatus.from_bytes, readU32, readU16, readU8, readN,
        leVal, Except.map, Except.mapError, bind, Except.bind, pure,
        Except.pure]
    · simp [field.from_bytes, instRFieldAmpduStatus, AmpduStatus.from_bytes, readU32, readU16, readU8, readN,
        leVal, Except.map, Except.mapError, bind, Except.bind, pure,
        Except.pure]
    · simp [field.from_bytes, instRFieldAmpduStatus, AmpduStatus.from_bytes, readU32, readU16, readU8, readN,
        leVal, Except.map, Except.mapError, bind, Except.bind, pure,
        Except.pure]
    · simp [field.from_bytes, instRFieldAmpduStatus, AmpduStatus.from_bytes, readU32, readU16, readU8, readN,
        leVal, Except.map, Except.mapError, bind, Except.bind, pure,
        Except.pure]
    · simp [field.from_bytes, instRFieldAmpduStatus, AmpduStatus.from_bytes, readU32, readU16, readU8, readN,
        leVal, Except.map, Except.mapError, bind, Except.bind, pure,
        Except.pure]
    · simp [field.from_bytes, instRFieldAmpduStatus, AmpduStatus.from_bytes, readU32, readU16, readU8, readN,
        leVal, Except.map, Except.mapError, bind, Except.bind, pure,
        Except.pure]
    · simp [field.from_bytes, instRFieldAmpduStatus, AmpduStatus.from_bytes, readU32, readU16, readU8, readN,
        leVal, Except.map, Except.mapError, bind, Except.bind, pure,
        Except.pure]
    · simp only [List.length_cons] at hl
      omega
  · intro l hl
    rcases l with _ | ⟨a, _ | ⟨b, _ | ⟨c, _ | ⟨d, _ | ⟨e, _ | ⟨f, _ | ⟨g, _ | ⟨a1, _ | ⟨b1, _ | ⟨c1, _ | ⟨d1, _ | ⟨e1, t⟩⟩⟩⟩⟩⟩⟩⟩⟩⟩⟩⟩
    · simp [field.from_bytes, instRFieldVht, Vht.from_bytes, readU16, readU8, readInto, readN,
        leVal, Except.map, Except.mapError, bind, Except.bind, pure,
        Except.pure]
    · simp [field.from_bytes, instRFieldVht, Vht.from_bytes, readU16, readU8, readInto, readN,
        leVal, Except.map, Except.mapError, bind, Except.bind, pure,
        Except.pure]
    · simp [field.from_bytes, instRFieldVht, Vht.from_bytes, readU16, readU8, readInto, readN,
        leVal, Except.map, Except.mapError, bind, Except.bind, pure,
        Except.pure]
    · simp [field.from_bytes, instRFieldVht, Vht.from_bytes, readU16, readU8, readInto, readN,
        leVal, Except.map, Except.mapError, bind, Except.bind, pure,
        Except.pure]
    · simp [field.from_bytes, instRFieldVht, Vht.from_bytes, readU16, readU8, readInto, readN,
        leVal, Except.map, Except.mapError, bind, Except.bind, pure,
        Except.pure]
    · simp [field.from_bytes, instRFieldVht, Vht.from_bytes, readU16, readU8, readInto, readN,
        leVal, Except.map, Except.mapError, bind, Except.bind, pure,
        Except.pure]
    · simp [field.from_bytes, instRFieldVht, Vht.from_bytes, readU16, readU8, readInto, readN,
        leVal, Except.map, Except.mapError, bind, Except.bind, pure,
        Except.pure]
    · simp [field.from_bytes, instRFieldVht, Vht.from_bytes, readU16, readU8, readInto, readN,
        leVal, Except.map, Except.mapError, bind, Except.bind, pure,
        Except.pure]
    · simp [field.from_bytes, instRFieldVht, Vht.from_bytes, readU16, readU8, readInto, readN,
        leVal, Except.map, Except.mapError, bind, Except.bind, pure,
        Except.pure]
    · simp [field.from_bytes, instRFieldVht, Vht.from_bytes, readU16, readU8, readInto, readN,
        leVal, Except.map, Except.mapError, bind, Except.bind, pure,
        Except.pure]
    · simp [field.from_bytes, instRFieldVht, Vht.from_bytes, readU16, readU8, readInto, readN,
        leVal, Except.map, Except.mapError, bind, Except.bind, pure,
        Except.pure]
    · simp [field.from_bytes, instRFieldVht, Vht.from_bytes, readU16, readU8, readInto, readN,
        leVal, Except.map, Except.mapError, bind, Except.bind, pure,
        Except.pure]
    · simp only [List.length_cons] at hl
      omega
  · intro l hl
    rcases l with _ | ⟨a, _ | ⟨b, _ | ⟨c, _ | ⟨d, _ | ⟨e, _ | ⟨f, _ | ⟨g, _ | ⟨a1, _ | ⟨b1, _ | ⟨c1, _ | ⟨d1, _ | ⟨e1, t⟩⟩⟩⟩⟩⟩⟩⟩⟩⟩⟩⟩
    · simp [field.from_bytes, instRFieldTimestamp, Timestamp.from_bytes, readU64, readU16, readU8, readN,
        leVal, Except.map, Except.mapError, bind, Except.bind, pure,
        Except.pure]
    · simp [field.from_bytes, instRFieldTimestamp, Timestamp.from_bytes, readU64, readU16, readU8, readN,
        leVal, Except.map, Except.mapError, bind, Except.bind, pure,
        Except.pure]
    · simp [field.from_bytes, instRFieldTimestamp, Timestamp.from_bytes, readU64, readU16, readU8, readN,
        leVal, Except.map, Except.mapError, bind, Except.bind, pure,
        Except.pure]
    · simp [field.from_bytes, instRFieldTimestamp, Timestamp.from_bytes, readU64, readU16, readU8, readN,
        leVal, Except.map, Except.mapError, bind, Except.bind, pure,
        Except.pure]
    · simp [field.from_bytes, instRFieldTimestamp, Timestamp.from_bytes, readU64, readU16, readU8, readN,
        leVal, Except.map, Except.mapError, bind, Except.bind, pure,
        Except.pure]
    · simp [field.from_bytes, instRFieldTimestamp, Timestamp.from_bytes, readU64, readU16, readU8, readN,
        leVal, Except.map, Except.mapError, bind, Except.bind, pure,
        Except.pure]
    · simp [field.from_bytes, instRFieldTimestamp, Timestamp.from_bytes, readU64, readU16, readU8, readN,
        leVal, Except.map, Except.mapError, bind, Except.bind, pure,
        Except.pure]
    · simp [field.from_bytes, instRFieldTimestamp, Timestamp.from_bytes, readU64, readU16, readU8, readN,
        leVal, Except.map, Except.mapError, bind, Except.bind, pure,
        Except.pure]
    · simp [field.from_bytes, instRFieldTimestamp, Timestamp.from_bytes, readU64, readU16, readU8, readN,
        leVal, Except.map, Except.mapError, bind, Except.bind, pure,
        Except.pure]
    · simp [field.from_bytes, instRFieldTimestamp, Timestamp.from_bytes, readU64, readU16, readU8, readN,
        leVal, Except.map, Except.mapError, bind, Except.bind, pure,
        Except.pure]
    · simp [field.from_bytes, instRFieldTimestamp, Timestamp.from_bytes, readU64, readU16, readU8, readN,
        leVal, Except.map, Except.mapError, bind, Except.bind, pure,
        Except.pure]
    · simp only [field.from_bytes]
      apply mapError_eq_invalid
      intro v h
      simp [instRFieldTimestamp, Timestamp.from_bytes, readU64, readU16,
        readU8, readN, leVal, Except.map, bind, Except.bind, pure,
        Except.pure] at h
      split at h
      · simp at h
      · split at h
        · simp at h
        · simp at h
    · simp only [List.length_cons] at hl
      omega

theorem c6_amended_witness :
    field.from_bytes Tsft [] = .error .InvalidFormat ∧
    field.from_bytes Vht [0, 0, 0, 0, 0, 0, 0, 0, 0, 0, 0] =
      .error .InvalidFormat := by
  obtain ⟨h1, -, -, -, -, -, -, -, -, -, -, -, -, -, -, -, -, -, -, -, -,
    hV, -⟩ := c6_short_input_amended
  exact ⟨h1 [] (by decide), hV _ (by decide)⟩

theorem map_eq_ok {α β : Type} {f : α → β} {x : Except ErrorKind α} {y : β}
    (h : x.map f = .ok y) : ∃ a, x = .ok a ∧ y = f a := by
  cases x with
  | ok a => exact ⟨a, rfl, by simpa [Except.map] using h.symm⟩
  | error e => simp [Except.map] at h

/-- Claim C10: a successful `Radiotap::update` with kind `k` changes at
most the optional slot belonging to `k`; for the non-exhaustive variant
(which has no slot) it always returns `Ok` with the record unchanged. -/
theorem c10_update_frame (r : Radiotap) (k : RadiotapKind) (d : List Nat) :
    (∀ r', Radiotap.update r k d = .ok r' →
      unchangedExcept k r r' ∧ (k = .nonexhaustive → r' = r)) ∧
    Radiotap.update r .nonexhaustive d = .ok r := by
  refine ⟨?_, rfl⟩
  intro r' h
  cases k <;> simp only [Radiotap.update] at h
  case nonexhaustive =>
    injection h with h
    subst h
    exact ⟨by simp [unchangedExcept], fun _ => rfl⟩
  all_goals
    obtain ⟨v, -, rfl⟩ := map_eq_ok h
    exact ⟨by simp [unchangedExcept], by simp⟩

theorem c10_witness :
    (Radiotap.update Radiotap.new .Flags [0] =
      .ok { Radiotap.new with flags := some ⟨false, false, false, false,
        false, false, false, false⟩ }) ∧
    unchangedExcept .Flags Radiotap.new
      { Radiotap.new with flags := some ⟨false, false, false, false, false,
        false, false, false⟩ } ∧
    (RadiotapKind.Flags = .nonexhaustive →
      { Radiotap.new with flags := some ⟨false, false, false, false, false,
        false, false, false⟩ } = Radiotap.new) := by
  refine ⟨by decide, ?_⟩
  exact (c10_update_frame Radiotap.new .Flags [0]).1
    { Radiotap.new with flags := some ⟨false, false, false, false, false,
      false, false, false⟩ } (by decide)

theorem and_mask_eq (k x : Nat) (hk : k ≤ 64) (hx : x < 2 ^ 64) :
    x &&& (2 ^ 64 - 2 ^ k) = 2 ^ k * (x / 2 ^ k) := by
  have hm : 2 ^ 64 - 2 ^ k = (2 ^ (64 - k) - 1) <<< k := by
    rw [Nat.shiftLeft_eq, Nat.sub_mul, one_mul, ← pow_add,
      Nat.sub_add_cancel hk]
  have hr : 2 ^ k * (x / 2 ^ k) = (x >>> k) <<< k := by
    rw [Nat.shiftLeft_eq, Nat.shiftRight_eq_div_pow, Nat.mul_comm]
  rw [hm, hr]
  apply Nat.eq_of_testBit_eq
  intro i
  rw [Nat.testBit_and, Nat.testBit_shiftLeft, Nat.testBit_shiftLeft,
    Nat.testBit_shiftRight, Nat.testBit_two_pow_sub_one]
  by_cases h1 : k ≤ i
  · by_cases h2 : i < 64
    · have h3 : i - k < 64 - k := by omega
      have h4 : k + (i - k) = i := by omega
      simp [h1, h2, h3, h4]
    · have h3 : ¬ (i - k < 64 - k) := by omega
      have h4 : x.testBit i = false :=
        Nat.testBit_lt_two_pow (lt_of_lt_of_le hx
          (Nat.pow_le_pow_right (by norm_num) (by omega)))
      have h5 : k + (i - k) = i := by omega
      simp [h1, h3, h4, h5]
  · simp [h1]

theorem alignPos_eq (k p : Nat) (hk : k ≤ 64)
    (hxor : (2 ^ 64 - 1) ^^^ ((2 ^ k - 1) % 2 ^ 64) = 2 ^ 64 - 2 ^ k)
    (hof : p + 2 ^ k - 1 < 2 ^ 64) :
    alignPos p (2 ^ k) = 2 ^ k * ((p + 2 ^ k - 1) / 2 ^ k) := by
  rw [alignPos, Nat.mod_eq_of_lt hof, hxor]
  exact and_mask_eq k _ hk hof

/-- Claim C5 (counterexample): at `p = 2^64 − 1`, `n = 2` the wrapping
`u64` addition overflows and the align operation moves the cursor *back*
to 0, contradicting "the new position is never smaller than `p`". -/
theorem c5_align_overflow :
    alignPos (2 ^ 64 - 1) 2 < 2 ^ 64 - 1 := by decide

/-- Claim C5 (amended): for `n ∈ {1, 2, 4, 8}` and any position `p` such
that `p + n − 1` does not overflow a `u64`, the align operation sets the
position to `(p + n − 1) & ~(n − 1)`, which is the smallest multiple of
`n` that is ≥ `p`; it is never smaller than `p`, is divisible by `n`, and
is idempotent. (When `p + n − 1 ≥ 2^64` the wrapped result is 0, smaller
than `p`.) -/
theorem c5_align_spec (p n : Nat)
    (hn : n = 1 ∨ n = 2 ∨ n = 4 ∨ n = 8)
    (hof : p + n - 1 < 2 ^ 64) :
    alignPos p n =
      ((p + n - 1) % 2 ^ 64) &&& ((2 ^ 64 - 1) ^^^ ((n - 1) % 2 ^ 64)) ∧
    p ≤ alignPos p n ∧
    alignPos p n % n = 0 ∧
    (∀ m, p ≤ m → m % n = 0 → alignPos p n ≤ m) ∧
    alignPos (alignPos p n) n = alignPos p n := by
  obtain rfl | rfl | rfl | rfl := hn
  · have key : ∀ q : Nat, q + 1 - 1 < 2 ^ 64 →
        alignPos q 1 = 1 * ((q + 1 - 1) / 1) :=
      fun q hq => alignPos_eq 0 q (by norm_num) (by decide) hq
    have k1 := key p hof
    refine ⟨rfl, ?_, ?_, ?_, ?_⟩
    · rw [k1]; omega
    · rw [k1]; omega
    · intro m h1 h2
      rw [k1]; omega
    · have h2 : alignPos p 1 + 1 - 1 < 2 ^ 64 := by rw [k1]; omega
      rw [key _ h2, k1]; omega
  · have key : ∀ q : Nat, q + 2 - 1 < 2 ^ 64 →
        alignPos q 2 = 2 * ((q + 2 - 1) / 2) :=
      fun q hq => alignPos_eq 1 q (by norm_num) (by decide) hq
    have k1 := key p hof
    refine ⟨rfl, ?_, ?_, ?_, ?_⟩
    · rw [k1]; omega
    · rw [k1]; omega
    · intro m h1 h2
      rw [k1]; omega
    · have h2 : alignPos p 2 + 2 - 1 < 2 ^ 64 := by rw [k1]; omega
      rw [key _ h2, k1]; omega
  · have key : ∀ q : Nat, q + 4 - 1 < 2 ^ 64 →
        alignPos q 4 = 4 * ((q + 4 - 1) / 4) :=
      fun q hq => alignPos_eq 2 q (by norm_num) (by decide) hq
    have k1 := key p hof
    refine ⟨rfl, ?_, ?_, ?_, ?_⟩
    · rw [k1]; omega
    · rw [k1]; omega
    · intro m h1 h2
      rw [k1]; omega
    · have h2 : alignPos p 4 + 4 - 1 < 2 ^ 64 := by rw [k1]; omega
      rw [key _ h2, k1]; omega
  · have key : ∀ q : Nat, q + 8 - 1 < 2 ^ 64 →
        alignPos q 8 = 8 * ((q + 8 - 1) / 8) :=
      fun q hq => alignPos_eq 3 q (by norm_num) (by decide) hq
    have k1 := key p hof
    refine ⟨rfl, ?_, ?_, ?_, ?_⟩
    · rw [k1]; omega
    · rw [k1]; omega
    · intro m h1 h2
      rw [k1]; omega
    · have h2 : alignPos p 8 + 8 - 1 < 2 ^ 64 := by rw [k1]; omega
      rw [key _ h2, k1]; omega

theorem c5_align_witness :
    ((4:Nat) = 1 ∨ (4:Nat) = 2 ∨ (4:Nat) = 4 ∨ (4:Nat) = 8) ∧
    ((5:Nat) + 4 - 1 < 2 ^ 64) ∧
    (alignPos 5 4 =
      ((5 + 4 - 1) % 2 ^ 64) &&& ((2 ^ 64 - 1) ^^^ ((4 - 1) % 2 ^ 64)) ∧
    5 ≤ alignPos 5 4 ∧
    alignPos 5 4 % 4 = 0 ∧
    (∀ m, 5 ≤ m → m % 4 = 0 → alignPos 5 4 ≤ m) ∧
    alignPos (alignPos 5 4) 4 = alignPos 5 4) :=
  ⟨by decide, by decide, c5_align_spec 5 4 (by decide) (by decide)⟩
